import Mathlib

/-!
Shallow embedding of `src/auto_booking.js` (wafid-automation-tool).

The script launches one Chromium browser and one page before the retry
loop, then loops `while (!matched)`: each iteration navigates to the
booking URL, fills every form field (candidate and appointment fields and
the target medical-center selection), clicks submit, waits for navigation
(uncaught 15s timeout), extracts the assigned-center text inside a
try/catch defaulting to the empty string, and compares it with the target
name after `trim().toLowerCase()` on both sides.  On a match it captures
`page.url()` and exits the loop; on a mismatch it sleeps and retries.

The environment (the external server and browser side effects) is modelled
per attempt by `AttemptEnv`; the loop is a fuel-indexed function
`runLoop`, where running out of fuel yields the `running` outcome (the
loop itself has no bound and no failure state).
-/

namespace Wafid

/-- Configuration constant `passportNumber` from the head of the script. -/
def passportNumber : String := "YOUR_PASSPORT_NUMBER"

/-- Configuration constant `firstName`. -/
def firstName : String := "YOUR_FIRST_NAME"

/-- Configuration constant `lastName`. -/
def lastName : String := "YOUR_LAST_NAME"

/-- Configuration constant `dob`. -/
def dob : String := "YYYY-MM-DD"

/-- Configuration constant `country`. -/
def country : String := "BD"

/-- Configuration constant `city`. -/
def city : String := "2059"

/-- Configuration constant `targetMedicalCenterName`. -/
def targetMedicalCenterName : String := "BENGAL MEDICAL CENTER"

/-- Configuration constant `targetMedicalCenterId`. -/
def targetMedicalCenterId : String := "10696"

/-- Configuration constant `bookingUrl`. -/
def bookingUrl : String := "https://wafid.com/book-appointment/"

/-- Options passed to `chromium.launch` in the script.  The script passes
only `headless: false`; Playwright's `proxy` option is absent, which we
embed as `proxy = none`. -/
structure LaunchOptions where
  headless : Bool
  proxy : Option String
deriving DecidableEq, Repr

/-- The one and only `chromium.launch({ headless: false })` call (line 16):
no proxy is configured. -/
def launchOptions : LaunchOptions := { headless := false, proxy := none }

/-- The browser is launched once before the loop and every attempt runs in
it, so the connection used by attempt `i` is the same `launchOptions` for
every `i`. -/
def connectionForAttempt (_i : Nat) : LaunchOptions := launchOptions

/-- One Playwright page action performed by the script. -/
inductive PageAction where
  | goto (url : String)
  | fill (selector value : String)
  | selectOption (selector value : String)
  | click (selector : String)
  | waitForNavigation (timeoutMs : Nat)
deriving DecidableEq, Repr

/-- The sequence of page actions performed by `fillAndSubmitForm`
(lines 19-36 of the script), in source order. -/
def fillAndSubmitFormActions : List PageAction :=
  [ .goto bookingUrl,
    .fill "input[name=\"passport\"]" passportNumber,
    .fill "input[name=\"first_name\"]" firstName,
    .fill "input[name=\"last_name\"]" lastName,
    .fill "input[name=\"dob\"]" dob,
    .selectOption "#id_country" country,
    .selectOption "#id_city" city,
    .selectOption "#id_medical_center" targetMedicalCenterId,
    .click "button[type=\"submit\"]",
    .waitForNavigation 15000 ]

/-- Every loop iteration calls the same `fillAndSubmitForm`, so the page
actions of attempt `i` are `fillAndSubmitFormActions` for every `i`. -/
def attemptActions (_i : Nat) : List PageAction := fillAndSubmitFormActions

/-- Observable state of the single page/browser context: current URL and
the cookie jar (standing in for cookies/cache/storage).  The script never
clears it. -/
structure PageState where
  url : String
  cookies : List (String × String)
deriving DecidableEq, Repr

/-- State of the single page created by `browser.newPage()` before the
loop (line 17). -/
def initialPage : PageState := { url := "about:blank", cookies := [] }

/-- Environment behaviour for one attempt: whether the post-submit
navigation succeeds and to which URL (`none` = the 15s
`waitForNavigation` timeout elapses and throws), which cookies the site
sets on the context during the attempt, and what `page.textContent`
yields on the assigned-center selector (`none` = the selector is absent
and the call throws, which the script catches). -/
structure AttemptEnv where
  navResult : Option String
  setCookies : List (String × String)
  extracted : Option String
deriving DecidableEq, Repr

/-- Errors that escape the loop body uncaught.  Only the
`waitForNavigation` timeout (line 35) can throw outside a try/catch. -/
inductive RunError where
  | navTimeout
deriving DecidableEq, Repr

/-- Embedding of `fillAndSubmitForm` as a state transformer: `page.goto`
sets the URL to `bookingUrl`, the site may set cookies on the shared
context, and `waitForNavigation` either lands on the response URL or
throws on timeout.  The form fills have no observable effect on
`PageState`; their action trace is `fillAndSubmitFormActions`. -/
def fillAndSubmitForm (st : PageState) (env : AttemptEnv) :
    Except RunError PageState :=
  let st1 : PageState := { url := bookingUrl, cookies := st.cookies ++ env.setCookies }
  match env.navResult with
  | none => .error .navTimeout
  | some navUrl => .ok { st1 with url := navUrl }

/-- ECMAScript whitespace recognised by `String.prototype.trim` (the
ASCII part: tab, LF, VT, FF, CR, space; the strings in play are ASCII). -/
def isJsWhitespace (c : Char) : Bool :=
  [9, 10, 11, 12, 13, 32].contains c.toNat

/-- JavaScript `String.prototype.trim()`: remove leading and trailing
whitespace. -/
def jsTrim (s : String) : String :=
  ⟨((s.data.dropWhile isJsWhitespace).reverse.dropWhile isJsWhitespace).reverse⟩

/-- JavaScript `String.prototype.toLowerCase()` on one character (ASCII
case mapping, which agrees with JS on the ASCII strings in play). -/
def jsCharToLower (c : Char) : Char :=
  if 65 ≤ c.toNat ∧ c.toNat ≤ 90 then Char.ofNat (c.toNat + 32) else c

/-- JavaScript `String.prototype.toLowerCase()`. -/
def jsToLowerCase (s : String) : String :=
  ⟨s.data.map jsCharToLower⟩

/-- The comparison on line 54 of the script:
`assignedCenter.trim().toLowerCase() === target.trim().toLowerCase()`.
This is the entire matching logic; there is no other comparison. -/
def matchesCenter (assigned target : String) : Bool :=
  jsToLowerCase (jsTrim assigned) == jsToLowerCase (jsTrim target)

/-- The assigned-center string an attempt feeds into the comparison:
the attempt's own extraction result, or `""` when the extraction threw
(the script initialises `let assignedCenter = ''` each iteration and the
catch block leaves it unchanged, lines 47-52). -/
def comparedValue (env : AttemptEnv) : String := env.extracted.getD ""

/-- Record of one loop iteration (the spec's AttemptResult, which the
script does not materialise; the fields are what the iteration computes). -/
structure AttemptRec where
  attemptNumber : Nat
  assignedCenter : String
  matched : Bool
  paymentUrl : Option String
deriving DecidableEq, Repr

/-- Outcome of running the loop with a given amount of fuel:
`completed` = the loop exited because an attempt matched (the script then
closes the browser and ends normally); `crashed` = an uncaught exception
aborted the run; `running` = the fuel ran out with the loop still going
(the script's loop has no bound of its own). -/
inductive RunOutcome where
  | completed (trace : List AttemptRec) (paymentUrl : String)
  | crashed (err : RunError) (trace : List AttemptRec)
  | running (trace : List AttemptRec) (st : PageState)
deriving DecidableEq, Repr

/-- The `while (!matched)` loop (lines 41-63).  `attempt` is the counter
incremented at the top of each iteration; `trace` accumulates one
`AttemptRec` per completed iteration.  The page state `st` is threaded
from iteration to iteration because the script reuses the single page. -/
def runLoop : Nat → PageState → (Nat → AttemptEnv) → Nat → List AttemptRec → RunOutcome
  | 0, st, _, _, trace => .running trace st
  | fuel + 1, st, envs, attempt, trace =>
    match fillAndSubmitForm st (envs (attempt + 1)) with
    | .error e => .crashed e trace
    | .ok st' =>
      if matchesCenter (comparedValue (envs (attempt + 1))) targetMedicalCenterName then
        .completed
          (trace ++ [⟨attempt + 1, comparedValue (envs (attempt + 1)), true, some st'.url⟩])
          st'.url
      else
        runLoop fuel st' envs (attempt + 1)
          (trace ++ [⟨attempt + 1, comparedValue (envs (attempt + 1)), false, none⟩])

/-- A whole run of the script: the loop started on the fresh page with
attempt counter 0 and empty history. -/
def runProgram (fuel : Nat) (envs : Nat → AttemptEnv) : RunOutcome :=
  runLoop fuel initialPage envs 0 []

/-- Attempt history of an outcome. -/
def runTrace : RunOutcome → List AttemptRec
  | .completed t _ => t
  | .crashed _ t => t
  | .running t _ => t

/-- Whether the outcome is the loop still running (fuel exhausted). -/
def RunOutcome.isRunning : RunOutcome → Bool
  | .running _ _ => true
  | _ => false

/-- Cookie jar of the page when the loop is still running (the state the
next attempt would start from). -/
def RunOutcome.pageCookies : RunOutcome → Option (List (String × String))
  | .running _ st => some st.cookies
  | _ => none

/-- Environment in which every attempt navigates fine but the server
assigns a different center. -/
def mismatchEnvs (_i : Nat) : AttemptEnv :=
  { navResult := some "https://wafid.com/slots/", setCookies := [],
    extracted := some "OTHER CENTER" }

/-- Mismatching environment that also sets a session cookie on the shared
browser context during each attempt. -/
def cookieEnvs (_i : Nat) : AttemptEnv :=
  { navResult := some "https://wafid.com/slots/",
    setCookies := [("sessionid", "abc")],
    extracted := some "OTHER CENTER" }

/-- Environment in which the post-submit navigation times out on every
attempt. -/
def timeoutEnvs (_i : Nat) : AttemptEnv :=
  { navResult := none, setCookies := [], extracted := none }

/-- Environment in which navigation succeeds but the assigned-center
selector is absent, so extraction throws (and is caught). -/
def failExtractEnvs (_i : Nat) : AttemptEnv :=
  { navResult := some "https://wafid.com/slots/", setCookies := [],
    extracted := none }

/-- Environment in which the first attempt is assigned the target center
(in different letter case) and lands on a payment page. -/
def matchEnvs (_i : Nat) : AttemptEnv :=
  { navResult := some "https://wafid.com/payment/123", setCookies := [],
    extracted := some "Bengal Medical Center" }

/-- A page state with a pre-existing cookie, as left behind by earlier
attempts on the shared page. -/
def pageWithCookie : PageState := { url := "about:blank", cookies := [("k", "v")] }

/-- Unfolding of one loop iteration whose navigation times out. -/
theorem runLoop_step_timeout (fuel : Nat) (st : PageState) (envs : Nat → AttemptEnv)
    (k : Nat) (tr : List AttemptRec) (hu : (envs (k + 1)).navResult = none) :
    runLoop (fuel + 1) st envs k tr = .crashed .navTimeout tr := by
  rw [runLoop]
  simp [fillAndSubmitForm, hu]

/-- Unfolding of one loop iteration whose extraction matches the target. -/
theorem runLoop_step_match (fuel : Nat) (st : PageState) (envs : Nat → AttemptEnv)
    (k : Nat) (tr : List AttemptRec) (u : String)
    (hu : (envs (k + 1)).navResult = some u)
    (hm : matchesCenter (comparedValue (envs (k + 1))) targetMedicalCenterName = true) :
    runLoop (fuel + 1) st envs k tr =
      .completed (tr ++ [⟨k + 1, comparedValue (envs (k + 1)), true, some u⟩]) u := by
  rw [runLoop]
  simp [fillAndSubmitForm, hu, hm]

/-- Unfolding of one loop iteration whose extraction mismatches. -/
theorem runLoop_step_mismatch (fuel : Nat) (st : PageState) (envs : Nat → AttemptEnv)
    (k : Nat) (tr : List AttemptRec) (u : String)
    (hu : (envs (k + 1)).navResult = some u)
    (hm : matchesCenter (comparedValue (envs (k + 1))) targetMedicalCenterName = false) :
    runLoop (fuel + 1) st envs k tr =
      runLoop fuel { url := u, cookies := st.cookies ++ (envs (k + 1)).setCookies }
        envs (k + 1) (tr ++ [⟨k + 1, comparedValue (envs (k + 1)), false, none⟩]) := by
  rw [runLoop]
  simp [fillAndSubmitForm, hu, hm]

/-- When every attempt mismatches (and navigation succeeds), the loop
consumes all its fuel, appending exactly one record per iteration, and is
still running afterwards. -/
theorem runLoop_all_mismatch (envs : Nat → AttemptEnv)
    (hmis : ∀ i, matchesCenter (comparedValue (envs i)) targetMedicalCenterName = false)
    (hnav : ∀ i, (envs i).navResult.isSome = true) :
    ∀ (fuel : Nat) (st : PageState) (k : Nat) (tr : List AttemptRec),
      (runLoop fuel st envs k tr).isRunning = true ∧
      (runTrace (runLoop fuel st envs k tr)).length = tr.length + fuel := by
  intro fuel
  induction fuel with
  | zero =>
    intro st k tr
    exact ⟨rfl, by simp [runLoop, runTrace]⟩
  | succ fuel ih =>
    intro st k tr
    obtain ⟨u, hu⟩ := Option.isSome_iff_exists.mp (hnav (k + 1))
    rw [runLoop_step_mismatch fuel st envs k tr u hu (hmis (k + 1))]
    obtain ⟨h1, h2⟩ := ih { url := u, cookies := st.cookies ++ (envs (k + 1)).setCookies }
      (k + 1) (tr ++ [⟨k + 1, comparedValue (envs (k + 1)), false, none⟩])
    refine ⟨h1, ?_⟩
    rw [h2]
    simp
    omega

/-- Cookies on the shared page are only ever appended to: any state the
loop is observed in extends the cookie jar it started from. -/
theorem runLoop_cookies_mono (envs : Nat → AttemptEnv) :
    ∀ (fuel : Nat) (st : PageState) (k : Nat) (tr tr' : List AttemptRec) (st' : PageState),
      runLoop fuel st envs k tr = .running tr' st' → st.cookies <+: st'.cookies := by
  intro fuel
  induction fuel with
  | zero =>
    intro st k tr tr' st' h
    rw [runLoop] at h
    injection h with h1 h2
    subst h2
    exact List.prefix_refl _
  | succ fuel ih =>
    intro st k tr tr' st' h
    rcases hu : (envs (k + 1)).navResult with _ | u
    · rw [runLoop_step_timeout fuel st envs k tr hu] at h
      simp at h
    · cases hm : matchesCenter (comparedValue (envs (k + 1))) targetMedicalCenterName with
      | true =>
        rw [runLoop_step_match fuel st envs k tr u hu hm] at h
        simp at h
      | false =>
        rw [runLoop_step_mismatch fuel st envs k tr u hu hm] at h
        have hrest := ih _ _ _ _ _ h
        exact List.IsPrefix.trans (List.prefix_append _ _) hrest

/-- Every record in the history was produced by the iteration it numbers:
its assigned-center field is that iteration's own compared value. -/
theorem runLoop_trace_assigned (envs : Nat → AttemptEnv) :
    ∀ (fuel : Nat) (st : PageState) (k : Nat) (tr : List AttemptRec) (r : AttemptRec),
      r ∈ runTrace (runLoop fuel st envs k tr) →
      r ∈ tr ∨ r.assignedCenter = comparedValue (envs r.attemptNumber) := by
  intro fuel
  induction fuel with
  | zero =>
    intro st k tr r h
    exact Or.inl (by simpa [runLoop, runTrace] using h)
  | succ fuel ih =>
    intro st k tr r h
    rcases hu : (envs (k + 1)).navResult with _ | u
    · rw [runLoop_step_timeout fuel st envs k tr hu] at h
      exact Or.inl (by simpa [runTrace] using h)
    · cases hm : matchesCenter (comparedValue (envs (k + 1))) targetMedicalCenterName with
      | true =>
        rw [runLoop_step_match fuel st envs k tr u hu hm] at h
        simp only [runTrace, List.mem_append, List.mem_singleton] at h
        rcases h with h | h
        · exact Or.inl h
        · subst h
          exact Or.inr rfl
      | false =>
        rw [runLoop_step_mismatch fuel st envs k tr u hu hm] at h
        rcases ih _ _ _ _ h with h | h
        · rcases List.mem_append.mp h with h | h
          · exact Or.inl h
          · rw [List.mem_singleton] at h
            subst h
            exact Or.inr rfl
        · exact Or.inr h

/-- Structure of a completed run: the history splits into the inherited
prefix, a block of unmatched records, and one final matched record whose
payment URL is the URL that attempt navigated to. -/
theorem runLoop_completed_struct (envs : Nat → AttemptEnv) :
    ∀ (fuel : Nat) (st : PageState) (k : Nat) (tr tr' : List AttemptRec) (url : String),
      runLoop fuel st envs k tr = .completed tr' url →
      ∃ mid r, tr' = tr ++ mid ++ [r] ∧ (∀ x ∈ mid, x.matched = false) ∧
        r.matched = true ∧ r.paymentUrl = some url ∧
        (envs r.attemptNumber).navResult = some url := by
  intro fuel
  induction fuel with
  | zero =>
    intro st k tr tr' url h
    rw [runLoop] at h
    simp at h
  | succ fuel ih =>
    intro st k tr tr' url h
    rcases hu : (envs (k + 1)).navResult with _ | u
    · rw [runLoop_step_timeout fuel st envs k tr hu] at h
      simp at h
    · cases hm : matchesCenter (comparedValue (envs (k + 1))) targetMedicalCenterName with
      | true =>
        rw [runLoop_step_match fuel st envs k tr u hu hm] at h
        injection h with h1 h2
        subst h1
        subst h2
        refine ⟨[], ⟨k + 1, comparedValue (envs (k + 1)), true, some u⟩,
          by simp, by simp, rfl, rfl, hu⟩
      | false =>
        rw [runLoop_step_mismatch fuel st envs k tr u hu hm] at h
        obtain ⟨mid, r, h1, h2, h3, h4, h5⟩ := ih _ _ _ _ _ h
        refine ⟨(⟨k + 1, comparedValue (envs (k + 1)), false, none⟩ : AttemptRec) :: mid,
          r, ?_, ?_, h3, h4, h5⟩
        · rw [h1]
          simp
        · intro x hx
          rcases List.mem_cons.mp hx with hx | hx
          · subst hx
            rfl
          · exact h2 x hx

/-- Runs that are still running or crashed contain no matched record
beyond those already in the inherited history. -/
theorem runLoop_unmatched (envs : Nat → AttemptEnv) :
    ∀ (fuel : Nat) (st : PageState) (k : Nat) (tr : List AttemptRec),
      (∀ x ∈ tr, x.matched = false) →
      ((∀ tr' st', runLoop fuel st envs k tr = .running tr' st' →
          ∀ x ∈ tr', x.matched = false) ∧
       (∀ e tr', runLoop fuel st envs k tr = .crashed e tr' →
          ∀ x ∈ tr', x.matched = false)) := by
  intro fuel
  induction fuel with
  | zero =>
    intro st k tr htr
    constructor
    · intro tr' st' h
      rw [runLoop] at h
      injection h with h1 h2
      subst h1
      exact htr
    · intro e tr' h
      rw [runLoop] at h
      simp at h
  | succ fuel ih =>
    intro st k tr htr
    rcases hu : (envs (k + 1)).navResult with _ | u
    · constructor
      · intro tr' st' h
        rw [runLoop_step_timeout fuel st envs k tr hu] at h
        simp at h
      · intro e tr' h
        rw [runLoop_step_timeout fuel st envs k tr hu] at h
        injection h with h1 h2
        subst h2
        exact htr
    · cases hm : matchesCenter (comparedValue (envs (k + 1))) targetMedicalCenterName with
      | true =>
        constructor
        · intro tr' st' h
          rw [runLoop_step_match fuel st envs k tr u hu hm] at h
          simp at h
        · intro e tr' h
          rw [runLoop_step_match fuel st envs k tr u hu hm] at h
          simp at h
      | false =>
        have htr' : ∀ x ∈ tr ++ [(⟨k + 1, comparedValue (envs (k + 1)), false, none⟩ :
            AttemptRec)], x.matched = false := by
          intro x hx
          rcases List.mem_append.mp hx with hx | hx
          · exact htr x hx
          · rw [List.mem_singleton] at hx
            subst hx
            rfl
        have hrec := ih { url := u, cookies := st.cookies ++ (envs (k + 1)).setCookies }
          (k + 1) (tr ++ [⟨k + 1, comparedValue (envs (k + 1)), false, none⟩]) htr'
        constructor
        · intro tr' st' h
          rw [runLoop_step_mismatch fuel st envs k tr u hu hm] at h
          exact hrec.1 tr' st' h
        · intro e tr' h
          rw [runLoop_step_mismatch fuel st envs k tr u hu hm] at h
          exact hrec.2 e tr' h

/-- C1 counterexample: the single-character-typo pair that the claim says
the match function accepts under the fuzzy threshold is in fact rejected
by the code's comparison (line 54), which is exact trim+lowercase
equality with no fuzzy path. -/
theorem c1_counterexample :
    matchesCenter "Green Crescent Clinic" "Green Crscnt Clinic" = false := by
  decide

/-- C1 (amended): the matching is exact only — trim+lowercase equality.
No fuzzy comparison exists, so the typo pair is rejected, and the clearly
dissimilar pair is rejected as well. -/
theorem c1_exact_only :
    matchesCenter "Green Crescent Clinic" "Green Crscnt Clinic" = false ∧
    matchesCenter "Green Crescent" "Red Cross" = false := by
  constructor <;> decide

/-- C2 counterexample: with every attempt mismatching, after 5 iterations
the loop has produced 5 attempt records and is still running — more than
the claimed `maxRetries = 3` bound, and with no `Failed` outcome in the
program at all. -/
theorem c2_counterexample :
    (runTrace (runProgram 5 mismatchEnvs)).length = 5 ∧
    (runProgram 5 mismatchEnvs).isRunning = true := by
  constructor <;> decide

/-- C2 (amended): the `while (!matched)` loop is unbounded: there is no
`maxRetries` guard and no `Failed`/`RetriesExhausted` transition.  When
every attempt mismatches, after `fuel` iterations — for every `fuel` —
the loop has produced exactly `fuel` attempt records and is still
running, so it never terminates. -/
theorem c2_loop_unbounded (fuel : Nat) (envs : Nat → AttemptEnv)
    (hmis : ∀ i, matchesCenter (comparedValue (envs i)) targetMedicalCenterName = false)
    (hnav : ∀ i, (envs i).navResult.isSome = true) :
    (runProgram fuel envs).isRunning = true ∧
    (runTrace (runProgram fuel envs)).length = fuel := by
  have h := runLoop_all_mismatch envs hmis hnav fuel initialPage 0 []
  simpa [runProgram] using h

/-- C2 witness: the amended statement instantiated at fuel 4 with the
all-mismatch environment. -/
theorem c2_witness :
    (∀ i, matchesCenter (comparedValue (mismatchEnvs i)) targetMedicalCenterName = false) ∧
    (∀ i, (mismatchEnvs i).navResult.isSome = true) ∧
    ((runProgram 4 mismatchEnvs).isRunning = true ∧
     (runTrace (runProgram 4 mismatchEnvs)).length = 4) :=
  ⟨fun _ => by simp only [mismatchEnvs]; decide,
    fun _ => by simp only [mismatchEnvs]; decide,
    c2_loop_unbounded 4 mismatchEnvs (fun _ => by simp only [mismatchEnvs]; decide)
      (fun _ => by simp only [mismatchEnvs]; decide)⟩

/-- C3 counterexample: a cookie set on the shared browser context during
attempt 1 is still present in the page state the loop carries into
attempt 2 — the session observed at the start of attempt 2 does not
report empty storage. -/
theorem c3_counterexample :
    (runProgram 1 cookieEnvs).pageCookies = some [("sessionid", "abc")] ∧
    (runProgram 1 cookieEnvs).pageCookies ≠ some [] := by
  constructor <;> decide

/-- C3 (amended): the script creates one browser and one page before the
loop and reuses them for every attempt; state is threaded from iteration
to iteration and never cleared, so whatever cookies the page holds when
the loop starts are still held (as a prefix of the jar) at every later
observation point. -/
theorem c3_state_inherited (fuel : Nat) (st : PageState) (envs : Nat → AttemptEnv)
    (k : Nat) (tr tr' : List AttemptRec) (st' : PageState)
    (h : runLoop fuel st envs k tr = .running tr' st') :
    st.cookies <+: st'.cookies :=
  runLoop_cookies_mono envs fuel st k tr tr' st' h

/-- C3 witness: starting from a page already holding a cookie, after one
mismatching attempt that sets a second cookie, the original cookie is
still there (prefix of the new jar). -/
theorem c3_witness :
    runLoop 1 pageWithCookie cookieEnvs 0 [] =
      .running [⟨1, "OTHER CENTER", false, none⟩]
        { url := "https://wafid.com/slots/",
          cookies := [("k", "v"), ("sessionid", "abc")] } ∧
    pageWithCookie.cookies <+: [("k", "v"), ("sessionid", "abc")] :=
  ⟨by decide,
    c3_state_inherited 1 pageWithCookie cookieEnvs 0 [] [⟨1, "OTHER CENTER", false, none⟩]
      { url := "https://wafid.com/slots/", cookies := [("k", "v"), ("sessionid", "abc")] }
      (by decide)⟩

/-- C4 counterexample: the one `chromium.launch({ headless: false })`
call configures no proxy, so no attempt goes through any proxy, let alone
a validated one from a pool. -/
theorem c4_counterexample : launchOptions.proxy = none := rfl

/-- C4 (amended): every attempt runs in the single browser launched
before the loop, whose launch options contain no proxy: there is no proxy
pool, no acquire, no failure marking, and no per-attempt egress rotation
at all. -/
theorem c4_no_proxy (i : Nat) :
    connectionForAttempt i = launchOptions ∧ (connectionForAttempt i).proxy = none :=
  ⟨rfl, rfl⟩

/-- C5 counterexample: the submission of attempt 1 — before any match has
occurred — already fills the candidate-scoped passport field. -/
theorem c5_counterexample :
    PageAction.fill "input[name=\"passport\"]" passportNumber ∈ attemptActions 1 := by
  decide

/-- C5 (amended): every attempt's submission fills the candidate-scoped
fields (passport, first name, last name, date of birth) together with the
appointment-scoped ones (country, city); nothing is deferred until after
a match. -/
theorem c5_all_fields_filled (i : Nat) :
    PageAction.fill "input[name=\"passport\"]" passportNumber ∈ attemptActions i ∧
    PageAction.fill "input[name=\"first_name\"]" firstName ∈ attemptActions i ∧
    PageAction.fill "input[name=\"last_name\"]" lastName ∈ attemptActions i ∧
    PageAction.fill "input[name=\"dob\"]" dob ∈ attemptActions i ∧
    PageAction.selectOption "#id_country" country ∈ attemptActions i ∧
    PageAction.selectOption "#id_city" city ∈ attemptActions i := by
  simp only [attemptActions]
  refine ⟨?_, ?_, ?_, ?_, ?_, ?_⟩ <;> decide

/-- C6 counterexample: with fuel for 5 more attempts, the very first
navigation timeout aborts the whole run: the history is empty (the error
was not recorded as an attempt result) and no further attempt is made. -/
theorem c6_counterexample :
    runProgram 5 timeoutEnvs = .crashed .navTimeout [] := by
  decide

/-- C6 (amended): `page.waitForNavigation({ timeout: 15000 })` is awaited
outside any try/catch, so a response timeout is not recovered: the run
crashes at once, the trace gains no record for the failed attempt, and no
further attempt is made regardless of remaining fuel. -/
theorem c6_timeout_crashes (fuel : Nat) (st : PageState) (envs : Nat → AttemptEnv)
    (k : Nat) (tr : List AttemptRec)
    (h : (envs (k + 1)).navResult = none) :
    runLoop (fuel + 1) st envs k tr = .crashed .navTimeout tr :=
  runLoop_step_timeout fuel st envs k tr h

/-- C6 witness: the amended statement instantiated with the timeout
environment at the first attempt. -/
theorem c6_witness :
    (timeoutEnvs 1).navResult = none ∧
    runLoop 3 initialPage timeoutEnvs 0 [] = .crashed .navTimeout [] :=
  ⟨rfl, c6_timeout_crashes 2 initialPage timeoutEnvs 0 [] rfl⟩

/-- C7: every attempt record's assigned-center field equals that
attempt's own compared value — its own live extraction result, defaulted
to "" when its extraction threw (the per-iteration `let assignedCenter =
''` plus try/catch, lines 47-52).  No value from any earlier attempt is
ever used. -/
theorem c7_live_extraction_only (fuel : Nat) (envs : Nat → AttemptEnv) (r : AttemptRec)
    (h : r ∈ runTrace (runProgram fuel envs)) :
    r.assignedCenter = comparedValue (envs r.attemptNumber) := by
  rcases runLoop_trace_assigned envs fuel initialPage 0 [] r h with h0 | h0
  · simp at h0
  · exact h0

/-- C7 witness: an attempt whose extraction throws is recorded with the
empty string — its own (failed) extraction defaulted, not any earlier
value. -/
theorem c7_witness :
    (⟨1, "", false, none⟩ : AttemptRec) ∈ runTrace (runProgram 1 failExtractEnvs) ∧
    (⟨1, "", false, none⟩ : AttemptRec).assignedCenter =
      comparedValue (failExtractEnvs 1) :=
  ⟨by decide, c7_live_extraction_only 1 failExtractEnvs ⟨1, "", false, none⟩ (by decide)⟩

/-- C8: whenever two strings are equal after JS trim + toLowerCase, the
line-54 comparison returns true. -/
theorem c8_exact_match (assigned target : String)
    (h : jsToLowerCase (jsTrim assigned) = jsToLowerCase (jsTrim target)) :
    matchesCenter assigned target = true := by
  simp [matchesCenter, h]

/-- C8 witness: the claim's concrete pair — equal after trimming and
lowercasing — is accepted. -/
theorem c8_witness :
    jsToLowerCase (jsTrim "Green Crescent") = jsToLowerCase (jsTrim "green crescent ") ∧
    matchesCenter "Green Crescent" "green crescent " = true :=
  ⟨by decide, c8_exact_match "Green Crescent" "green crescent " (by decide)⟩

/-- C9: a run reaches the completed outcome exactly by an attempt whose
comparison matched: the final record of a completed run has `matched =
true` and carries the captured payment URL (nonempty whenever the
browser's navigation URLs are nonempty), every earlier record is
unmatched, and the loop stops immediately on the matching attempt; runs
still running or crashed contain no matched record at all. -/
theorem c9_completed_iff_matched (fuel : Nat) (envs : Nat → AttemptEnv)
    (hne : ∀ i u, (envs i).navResult = some u → u ≠ "") :
    (∀ tr url, runProgram fuel envs = .completed tr url →
        tr.getLast?.map AttemptRec.matched = some true ∧
        tr.getLast?.map AttemptRec.paymentUrl = some (some url) ∧
        url ≠ "" ∧ ∀ x ∈ tr.dropLast, x.matched = false) ∧
    (∀ tr st', runProgram fuel envs = .running tr st' → ∀ x ∈ tr, x.matched = false) ∧
    (∀ e tr, runProgram fuel envs = .crashed e tr → ∀ x ∈ tr, x.matched = false) := by
  refine ⟨?_, ?_, ?_⟩
  · intro tr url h
    obtain ⟨mid, r, h1, h2, h3, h4, h5⟩ :=
      runLoop_completed_struct envs fuel initialPage 0 [] tr url h
    simp only [List.nil_append] at h1
    subst h1
    refine ⟨?_, ?_, hne r.attemptNumber url h5, ?_⟩
    · rw [List.getLast?_concat]
      simp [h3]
    · rw [List.getLast?_concat]
      simp [h4]
    · rw [List.dropLast_concat]
      exact h2
  · intro tr st' h
    exact (runLoop_unmatched envs fuel initialPage 0 [] (by simp)).1 tr st' h
  · intro e tr h
    exact (runLoop_unmatched envs fuel initialPage 0 [] (by simp)).2 e tr h

/-- C9 witness: a one-attempt run in which the server assigns the target
center completes with a single matched record carrying the nonempty
payment URL. -/
theorem c9_witness :
    (∀ i u, (matchEnvs i).navResult = some u → u ≠ "") ∧
    (([⟨1, "Bengal Medical Center", true, some "https://wafid.com/payment/123"⟩] :
        List AttemptRec).getLast?.map AttemptRec.matched = some true ∧
     ([⟨1, "Bengal Medical Center", true, some "https://wafid.com/payment/123"⟩] :
        List AttemptRec).getLast?.map AttemptRec.paymentUrl =
          some (some "https://wafid.com/payment/123") ∧
     "https://wafid.com/payment/123" ≠ "" ∧
     ∀ x ∈ ([⟨1, "Bengal Medical Center", true, some "https://wafid.com/payment/123"⟩] :
        List AttemptRec).dropLast, x.matched = false) := by
  have hne : ∀ i u, (matchEnvs i).navResult = some u → u ≠ "" := by
    intro i u hu
    simp only [matchEnvs] at hu
    injection hu with hu
    subst hu
    decide
  exact ⟨hne, (c9_completed_iff_matched 1 matchEnvs hne).1
    [⟨1, "Bengal Medical Center", true, some "https://wafid.com/payment/123"⟩]
    "https://wafid.com/payment/123" (by decide)⟩

/-- C10: on every attempt, the script itself selects the operator's
target medical-center ID into the form's medical-center field, and does
so before clicking submit. -/
theorem c10_target_center_selected (i : Nat) :
    PageAction.selectOption "#id_medical_center" targetMedicalCenterId ∈ attemptActions i ∧
    PageAction.click "button[type=\"submit\"]" ∈ attemptActions i ∧
    (attemptActions i).findIdx
        (· == PageAction.selectOption "#id_medical_center" targetMedicalCenterId) <
      (attemptActions i).findIdx (· == PageAction.click "button[type=\"submit\"]") := by
  simp only [attemptActions]
  refine ⟨?_, ?_, ?_⟩ <;> decide

end Wafid
